import Mathlib

/-!
Shallow embedding of the satellite tile-processing pipeline
(`pyrolysis_aws`): schema & identity layer, DynamoDB tile-job adapter,
retry/deadline engine, tile processor orchestration, worker handler and
ingest run-id derivation, together with proofs of the specification
claims about them.

Machine conventions: epochs and counters are `Int`/`Nat`; wall-clock
times and float-valued quantities are exact rationals `ℚ`; DynamoDB
numeric attribute payloads are carried as the literal strings the
adapter serializes (`str(...)` in Python), since that is what is sent
on the wire.
-/

namespace Pyrolysis

/-- `JobStatus` enum from `core/schema/models.py`. -/
inductive JobStatus where
  | PENDING
  | PROCESSING
  | COMPLETED
  | FAILED
deriving DecidableEq, Repr

/-- The two imagery sources accepted by `TileJobMessage.imagery_source`. -/
inductive ImagerySource where
  | mapbox
  | google
deriving DecidableEq, Repr

/-- `TileJobMessage` from `core/schema/models.py` (post-parse field values;
`source: SourceRef` provenance is not consulted by any claim and is omitted
from the record). Latitude/longitude are modelled as exact rationals. -/
structure TileJobMessage where
  run_id : String
  imagery_source : ImagerySource
  z : Option Int := none
  x : Option Int := none
  y : Option Int := none
  region : Option String := none
  lat : Option ℚ := none
  lon : Option ℚ := none
  zoom : Option Int := none
deriving DecidableEq, Repr

/-- Pydantic validation of `TileJobMessage`: field bounds plus the
`_validate_source_specific_fields` model validator. -/
def validMessage (m : TileJobMessage) : Bool :=
  m.z.all (fun z => decide (0 ≤ z ∧ z ≤ 22)) &&
  m.x.all (fun x => decide (0 ≤ x)) &&
  m.y.all (fun y => decide (0 ≤ y)) &&
  m.lat.all (fun la => decide (-90 ≤ la ∧ la ≤ 90)) &&
  m.lon.all (fun lo => decide (-180 ≤ lo ∧ lo ≤ 180)) &&
  m.zoom.all (fun zm => decide (0 ≤ zm ∧ zm ≤ 22)) &&
  (match m.imagery_source with
   | .mapbox => m.z.isSome && m.x.isSome && m.y.isSome
   | .google => m.lat.isSome && m.lon.isSome)

/-- `DEFAULT_GOOGLE_ZOOM` from `core/schema/models.py`. -/
def DEFAULT_GOOGLE_ZOOM : Int := 18

/-- Round a rational to the nearest integer, ties to the even neighbour
(the rule used by Python's fixed-point float formatting). -/
def roundHalfEvenQ (q : ℚ) : Int :=
  let f : Int := ⌊q⌋
  let frac : ℚ := q - f
  if frac < 1/2 then f
  else if 1/2 < frac then f + 1
  else if Even f then f else f + 1

/-- Left-pad a numeral string with zeros to width `w`. -/
def padZeros (w : Nat) (s : String) : String :=
  String.mk (List.replicate (w - s.length) '0') ++ s

/-- Python `f"{q:.6f}"` on the exact value `q`: fixed-point rendering with
exactly six fractional digits, round half to even, sign taken from `q`
(so a negative value rounding to zero renders as `-0.000000`). -/
def formatFixed6 (q : ℚ) : String :=
  let n : Int := roundHalfEvenQ (|q| * 1000000)
  let nn : Nat := n.toNat
  let intPart : Nat := nn / 1000000
  let fracPart : Nat := nn % 1000000
  (if q < 0 then "-" else "") ++ toString intPart ++ "." ++
    padZeros 6 (toString fracPart)

/-- Python `str(int)`. -/
def pyStrInt (n : Int) : String := toString n

/-- Python `str(...)` on an `int | None` value: `None` renders as the
literal string `"None"`. -/
def pyStrOptInt : Option Int → String
  | none => "None"
  | some n => pyStrInt n

/-- Serialization of a rational-valued field via Python `str(float)`.
The claims never inspect these strings; the exact shortest-round-trip
float rendering is abstracted by an exact rendering of the rational. -/
def pyStrRat (q : ℚ) : String := toString q.num ++ "/" ++ toString q.den

/-- Serialization of a `float | None` field. -/
def pyStrOptRat : Option ℚ → String
  | none => "None"
  | some q => pyStrRat q

/-- `tile_id_for_coords` from `core/schema/models.py`:
`f"coord:{lat:.6f},{lon:.6f},{zoom}"`. -/
def tile_id_for_coords (lat lon : ℚ) (zoom : Int) : String :=
  "coord:" ++ formatFixed6 lat ++ "," ++ formatFixed6 lon ++ "," ++ pyStrInt zoom

/-- `TileJobMessage.get_tile_id`: `"{z}/{x}/{y}"` for mapbox, and
`tile_id_for_coords(lat, lon, zoom ?? DEFAULT_GOOGLE_ZOOM)` for google.
On validated messages the coordinates are always present; for
unreachable missing mapbox coordinates Python renders `"None"`
(mirrored by `pyStrOptInt`), and for unreachable missing google
coordinates — where Python's `:.6f` would raise — the model defaults
the value to `0`. -/
def get_tile_id (m : TileJobMessage) : String :=
  match m.imagery_source with
  | .mapbox => pyStrOptInt m.z ++ "/" ++ pyStrOptInt m.x ++ "/" ++ pyStrOptInt m.y
  | .google =>
      tile_id_for_coords ((m.lat).getD 0) ((m.lon).getD 0)
        ((m.zoom).getD DEFAULT_GOOGLE_ZOOM)

/-- `TileJobMessage.get_zoom`: the message zoom, defaulting to
`DEFAULT_GOOGLE_ZOOM` when unset. -/
def get_zoom (m : TileJobMessage) : Int :=
  match m.zoom with
  | some z => z
  | none => DEFAULT_GOOGLE_ZOOM

/-- `S3Checkpoint` from `core/schema/models.py`. -/
structure S3Checkpoint where
  bucket : String
  key : String
deriving DecidableEq, Repr

/-- `ClaimResult` enum from `core/schema/models.py`. -/
inductive ClaimResult where
  | CLAIMED
  | ALREADY_COMPLETED
  | LOCKED_BY_OTHER
deriving DecidableEq, Repr

/-- `ClaimResultData` from `core/schema/models.py`. -/
structure ClaimResultData where
  result : ClaimResult
  tile_id : String
  attempt : Option Int := none
  claimed_at_epoch : Option Int := none
  checkpoint : Option S3Checkpoint := none
deriving DecidableEq, Repr

/-- One item of the `TileJobs` DynamoDB table. Attributes the adapter
does integer arithmetic on (`attempts`, epochs) are typed `Int`;
coordinate attributes hold the literal numeric payload strings the
adapter serializes with Python `str(...)` (claim C10 concerns those
strings). The `status` attribute is present on every row the pipeline
writes, so it is a required field of the model. -/
structure TileJobRow where
  status : JobStatus
  attempts : Option Int := none
  lock_until_epoch : Option Int := none
  started_at_epoch : Option Int := none
  last_claimed_at_epoch : Option Int := none
  finished_at_epoch : Option Int := none
  duration_ms : Option Int := none
  imagery_source : Option String := none
  z : Option String := none
  x : Option String := none
  y : Option String := none
  region : Option String := none
  lat : Option String := none
  lon : Option String := none
  zoom : Option String := none
  s3_bucket : Option String := none
  s3_key : Option String := none
  status_ai : Option String := none
  reasoning : Option String := none
  error_code : Option String := none
  error_message : Option String := none
deriving DecidableEq, Repr

/-- The string value the adapter writes for `imagery_source`. -/
def sourceStr : ImagerySource → String
  | .mapbox => "mapbox"
  | .google => "google"

/-- The `ConditionExpression` of `claim_job`
(`core/ddb/tilejobs.py`), evaluated against the current row of the
`(run_id, tile_id)` key:
`attribute_not_exists(#status) OR #status IN (:pending, :failed) OR
(#status = :processing AND (attribute_not_exists(lock_until_epoch) OR
lock_until_epoch < :now))`. -/
def claimCondition (row : Option TileJobRow) (now : Int) : Bool :=
  match row with
  | none => true
  | some r =>
      r.status = JobStatus.PENDING || r.status = JobStatus.FAILED ||
      (r.status = JobStatus.PROCESSING &&
        (match r.lock_until_epoch with
         | none => true
         | some lock => decide (lock < now)))

/-- The `UpdateExpression` of `claim_job` applied to the current row
(`none` = item did not exist; DynamoDB creates it). Mirrors, clause by
clause: `SET #status = :processing, attempts = if_not_exists(attempts,
:zero) + :one, lock_until_epoch = :lock, started_at_epoch =
if_not_exists(started_at_epoch, :now), last_claimed_at_epoch =
:last_claimed, imagery_source = if_not_exists(imagery_source, :source)`
plus, for mapbox, `z/x/y` (and `#region` when `message.region` is
truthy) under `if_not_exists`, and for google `lat/lon/zoom` under
`if_not_exists`, with the attribute values serialized exactly as the
adapter builds `expr_values` (`str(message.zoom)` renders `None` as
`"None"`). -/
def applyClaim (row : Option TileJobRow) (m : TileJobMessage)
    (now lock_seconds : Int) : TileJobRow :=
  let base : TileJobRow :=
    match row with
    | some r => r
    | none => { status := JobStatus.PROCESSING }
  let common : TileJobRow :=
    { base with
      status := JobStatus.PROCESSING
      attempts := some ((base.attempts.getD 0) + 1)
      lock_until_epoch := some (now + lock_seconds)
      started_at_epoch := some (base.started_at_epoch.getD now)
      last_claimed_at_epoch := some now
      imagery_source := some (base.imagery_source.getD (sourceStr m.imagery_source)) }
  match m.imagery_source with
  | .mapbox =>
      let withCoords : TileJobRow :=
        { common with
          z := some (common.z.getD (pyStrOptInt m.z))
          x := some (common.x.getD (pyStrOptInt m.x))
          y := some (common.y.getD (pyStrOptInt m.y)) }
      -- `if message.region:` — Python truthiness: present AND non-empty.
      match m.region with
      | some reg =>
          if reg ≠ "" then
            { withCoords with region := some (withCoords.region.getD reg) }
          else withCoords
      | none => withCoords
  | .google =>
      { common with
        lat := some (common.lat.getD (pyStrOptRat m.lat))
        lon := some (common.lon.getD (pyStrOptRat m.lon))
        zoom := some (common.zoom.getD (pyStrOptInt m.zoom)) }

/-- Checkpoint extraction from the `ALL_NEW` post-image in `claim_job`:
`if s3_bucket and s3_key:` — Python truthiness, so both attributes must
be present and non-empty. -/
def checkpointOf (r : TileJobRow) : Option S3Checkpoint :=
  match r.s3_bucket, r.s3_key with
  | some b, some k => if b ≠ "" && k ≠ "" then some ⟨b, k⟩ else none
  | _, _ => none

/-- `claim_job` from `core/ddb/tilejobs.py`, as a transition on the
`(run_id, tile_id)` row. On a successful conditional update it returns
`CLAIMED` with the post-image `attempts` and any pre-existing S3
checkpoint; on `ConditionalCheckFailedException` it re-reads the row's
status (`_get_job_status`) and returns `ALREADY_COMPLETED` exactly for
`COMPLETED`, else `LOCKED_BY_OTHER`, leaving the row unmodified. -/
def claim_job (row : Option TileJobRow) (m : TileJobMessage)
    (now : Int) (lock_seconds : Int) : ClaimResultData × Option TileJobRow :=
  let tile_id := get_tile_id m
  if claimCondition row now then
    let newRow := applyClaim row m now lock_seconds
    (⟨ClaimResult.CLAIMED, tile_id, some ((newRow.attempts).getD 0), some now,
       checkpointOf newRow⟩, some newRow)
  else
    let current_status := (row.map TileJobRow.status)
    let result :=
      if current_status = some JobStatus.COMPLETED then ClaimResult.ALREADY_COMPLETED
      else ClaimResult.LOCKED_BY_OTHER
    (⟨result, tile_id, none, none, none⟩, row)

/-- `checkpoint_s3` from `core/ddb/tilejobs.py`: unconditional
`SET s3_bucket = :bucket, s3_key = :key` on an existing row (the
pipeline only calls it after a successful claim created the row). -/
def checkpoint_s3 (r : TileJobRow) (s3_bucket s3_key : String) : TileJobRow :=
  { r with s3_bucket := some s3_bucket, s3_key := some s3_key }

/-- `complete_job` from `core/ddb/tilejobs.py`: unconditional terminal
write of `COMPLETED`, `finished_at_epoch`, the S3 location, optional AI
result fields, and `duration_ms = (finished − claimed_at_epoch) * 1000`
when `claimed_at_epoch` is supplied. -/
def complete_job (r : TileJobRow) (s3_bucket s3_key : String)
    (status_ai reasoning : Option String)
    (claimed_at_epoch : Option Int) (finished : Int) : TileJobRow :=
  let r1 : TileJobRow :=
    { r with
      status := JobStatus.COMPLETED
      finished_at_epoch := some finished
      s3_bucket := some s3_bucket
      s3_key := some s3_key }
  let r2 : TileJobRow :=
    match status_ai with
    | some sai => { r1 with status_ai := some sai }
    | none => r1
  let r3 : TileJobRow :=
    match reasoning with
    | some rs => { r2 with reasoning := some rs }
    | none => r2
  match claimed_at_epoch with
  | some claimed => { r3 with duration_ms := some ((finished - claimed) * 1000) }
  | none => r3

/-- `fail_job` from `core/ddb/tilejobs.py`: unconditional
`SET #status = :status, finished_at_epoch = :finished, error_code =
:code, error_message = :message` with `:status = FAILED`. -/
def fail_job (r : TileJobRow) (error_code error_message : String)
    (finished : Int) : TileJobRow :=
  { r with
    status := JobStatus.FAILED
    finished_at_epoch := some finished
    error_code := some error_code
    error_message := some error_message }

/-! ### Retry/deadline engine (`core/io/http.py`) -/

/-- Numeric value of a list of decimal digit characters. -/
def digitsToNat (l : List Char) : Nat :=
  l.foldl (fun a c => a * 10 + (c.toNat - '0'.toNat)) 0

/-- Exponent suffix of a Python float literal (`e`/`E`, optional sign,
one or more digits, end of string). -/
def parseExpDigits (mant : ℚ) (sgn : Int) (l : List Char) : Option ℚ :=
  let (ds, rest) := l.span Char.isDigit
  if ds.isEmpty || !rest.isEmpty then none
  else some (mant * (10 : ℚ) ^ (sgn * (digitsToNat ds : Int)))

/-- Optional exponent part after the mantissa. -/
def parseExpPart (mant : ℚ) : List Char → Option ℚ
  | [] => some mant
  | c :: rest =>
      if c = 'e' || c = 'E' then
        match rest with
        | '+' :: r => parseExpDigits mant 1 r
        | '-' :: r => parseExpDigits mant (-1) r
        | r => parseExpDigits mant 1 r
      else none

/-- Unsigned mantissa of a Python float literal: digits, optional
fractional part, optional exponent. -/
def pyFloatAux (l : List Char) : Option ℚ :=
  let (ip, rest) := l.span Char.isDigit
  match rest with
  | '.' :: rest2 =>
      let (fp, rest3) := rest2.span Char.isDigit
      if ip.isEmpty && fp.isEmpty then none
      else
        parseExpPart ((digitsToNat ip : ℚ) +
          (digitsToNat fp : ℚ) / (10 : ℚ) ^ fp.length) rest3
  | _ =>
      if ip.isEmpty then none
      else parseExpPart (digitsToNat ip : ℚ) rest

/-- Python `float(s)` on the finite decimal forms (optional surrounding
whitespace, optional sign, decimal mantissa, optional exponent);
`none` when `float()` would raise `ValueError`. The non-finite literals
(`inf`, `nan`) are outside the model. -/
def pyFloat? (s : String) : Option ℚ :=
  let l := ((s.toList.dropWhile Char.isWhitespace).reverse.dropWhile
    Char.isWhitespace).reverse
  match l with
  | '+' :: r => pyFloatAux r
  | '-' :: r => (pyFloatAux r).map Neg.neg
  | r => pyFloatAux r

/-- An HTTP response as the engine sees it: status code and the
`Retry-After` header (absent = `none`). -/
structure HttpResponse where
  status_code : Nat
  retry_after : Option String := none
deriving DecidableEq, Repr

/-- `_RETRYABLE_STATUS` from `core/io/http.py`. -/
def RETRYABLE_STATUS : List Nat := [429, 500, 502, 503, 504]

/-- Observable events of one `request_with_retry` run. -/
inductive RetryEvent where
  | attemptEv (i : Nat) (t : ℚ)
  | sleepEv (i : Nat) (start dur : ℚ)
deriving DecidableEq, Repr

/-- Result of one `request_with_retry` run. `assertError` is the
`assert last_response is not None` failure reachable only with
`max_retries = 0`. -/
inductive RetryOutcome where
  | success (r : HttpResponse)
  | retryExhausted (last : HttpResponse) (attempts : Nat)
  | deadlineExceeded (remaining_ms : ℚ)
  | assertError
deriving DecidableEq, Repr

/-- Environment for a run: the response each attempt receives and the
wall time each request consumes. -/
structure RetryEnv where
  respond : Nat → HttpResponse
  reqDur : Nat → ℚ

/-- The backoff computation of `core/io/http.py`: with a truthy
`Retry-After` header that parses as a float use that value, otherwise
`backoff_base * 2 ** (attempt - 1)`. -/
def sleepFor (backoff_base : ℚ) (attempt : Nat) (retry_after : Option String) : ℚ :=
  match retry_after with
  | some ra =>
      if ra ≠ "" then
        match pyFloat? ra with
        | some f => f
        | none => backoff_base * 2 ^ (attempt - 1)
      else backoff_base * 2 ^ (attempt - 1)
  | none => backoff_base * 2 ^ (attempt - 1)

/-- The `for attempt in range(1, max_retries + 1)` loop of
`request_with_retry`, with `fuel` = remaining iterations
(`max_retries - attempt + 1`), `now` the current wall clock, and
`last` the last retryable response seen. Faithful to the code: the
deadline is checked before each attempt (`remaining_ms <
min_time_for_attempt_ms` aborts) and before each sleep
(`time_after_sleep + min_ms/1000 > deadline` aborts); no sleep is taken
after the final attempt (`if attempt >= max_retries: break`). -/
def requestLoop (env : RetryEnv) (retryable : List Nat) (max_retries : Nat)
    (backoff_base : ℚ) (deadline : Option ℚ) (min_ms : ℚ) :
    Nat → Nat → ℚ → Option HttpResponse → RetryOutcome × List RetryEvent
  | 0, _, _, last =>
      match last with
      | some r => (.retryExhausted r max_retries, [])
      | none => (.assertError, [])
  | fuel + 1, attempt, now, _ =>
      let pre_abort : Bool :=
        match deadline with
        | some d => decide ((d - now) * 1000 < min_ms)
        | none => false
      if pre_abort then
        (.deadlineExceeded (((deadline.getD 0) - now) * 1000), [])
      else
        let resp := env.respond attempt
        let now1 := now + env.reqDur attempt
        let ev := RetryEvent.attemptEv attempt now
        if !(retryable.contains resp.status_code) then
          (.success resp, [ev])
        else if fuel = 0 then
          (.retryExhausted resp max_retries, [ev])
        else
          let slp := sleepFor backoff_base attempt resp.retry_after
          let sleep_abort : Bool :=
            match deadline with
            | some d => decide (now1 + slp + min_ms / 1000 > d)
            | none => false
          if sleep_abort then
            (.deadlineExceeded (((deadline.getD 0) - now1) * 1000), [ev])
          else
            let rest := requestLoop env retryable max_retries backoff_base
              deadline min_ms fuel (attempt + 1) (now1 + slp) (some resp)
            (rest.1, ev :: .sleepEv attempt now1 slp :: rest.2)

/-- `request_with_retry` from `core/io/http.py`, started at wall time
`start` with attempt counter 1. -/
def request_with_retry (env : RetryEnv) (max_retries : Nat)
    (backoff_base : ℚ) (retryable : List Nat) (deadline_epoch : Option ℚ)
    (min_time_for_attempt_ms : ℚ) (start : ℚ) :
    RetryOutcome × List RetryEvent :=
  requestLoop env retryable max_retries backoff_base deadline_epoch
    min_time_for_attempt_ms max_retries 1 start none

/-! ### S3 key derivation (`core/io/s3_keys.py`) and error taxonomy
(`core/errors/codes.py`) -/

/-- `mapbox_tile_key`. -/
def mapbox_tile_key (run_id : String) (z x y : Int) (ext : String) : String :=
  "runs/" ++ run_id ++ "/tiles/z=" ++ pyStrInt z ++ "/x=" ++ pyStrInt x ++
    "/y=" ++ pyStrInt y ++ "." ++ ext

/-- `google_coord_key`: zoom defaults to `DEFAULT_GOOGLE_ZOOM`. -/
def google_coord_key (run_id : String) (lat lon : ℚ) (zoom : Option Int)
    (ext : String) : String :=
  "runs/" ++ run_id ++ "/coords/lat=" ++ formatFixed6 lat ++ "/lon=" ++
    formatFixed6 lon ++ "/z=" ++ pyStrInt (zoom.getD DEFAULT_GOOGLE_ZOOM) ++
    "." ++ ext

/-- The deterministic `(bucket, key)` chosen by `upload_tile_image`
(`core/io/s3.py`): mapbox keys use ext `jpg`, google keys ext `png`. -/
def uploadTarget (cfg_bucket : String) (m : TileJobMessage) : String × String :=
  match m.imagery_source with
  | .mapbox => (cfg_bucket, mapbox_tile_key m.run_id ((m.z).getD 0) ((m.x).getD 0)
      ((m.y).getD 0) "jpg")
  | .google => (cfg_bucket, google_coord_key m.run_id ((m.lat).getD 0)
      ((m.lon).getD 0) (some (get_zoom m)) "png")

/-- `error_code_from_http_status` (`core/errors/codes.py`); error codes
are carried as their string values. -/
def error_code_from_http_status (source : String) (status_code : Nat) : String :=
  let su := source.toUpper
  if status_code = 429 then su ++ "_429"
  else if 500 ≤ status_code && status_code < 600 then su ++ "_5XX"
  else if 400 ≤ status_code && status_code < 500 then
    (if status_code = 400 then su ++ "_BAD_REQUEST" else su ++ "_4XX")
  else "UNKNOWN_ERROR"

/-- The Python exceptions distinguished by the processor's error
classifier, with the message `str(exc)` carried explicitly. -/
inductive PyExc where
  | imageryFetchError (source : String) (status : Option Nat) (msg : String)
  | analysisError (msg : String)
  | timeoutError (msg : String)
  | runtimeError (msg : String)
  | s3Error (msg : String)
  | otherError (msg : String)
deriving DecidableEq, Repr

/-- `str(exc)` of a modelled exception. -/
def excMessage : PyExc → String
  | .imageryFetchError _ _ msg => msg
  | .analysisError msg => msg
  | .timeoutError msg => msg
  | .runtimeError msg => msg
  | .s3Error msg => msg
  | .otherError msg => msg

/-- `needle` occurs as a substring of `hay`. -/
def strContains (hay needle : String) : Bool :=
  (List.range (hay.toList.length + 1)).any
    (fun i => needle.toList.isPrefixOf (hay.toList.drop i))

/-- `_exception_to_error_code` (`core/pipeline/tile_processor.py`): the
isinstance chain, then the `"S3" in type name or "s3" in str(exc)`
check (the `s3Error` constructor models exception classes whose name
contains `"S3"`), else `UNKNOWN_ERROR`. -/
def _exception_to_error_code : PyExc → String
  | .imageryFetchError src status _ =>
      (match status with
       | some sc => error_code_from_http_status src sc
       | none => src.toUpper ++ "_TIMEOUT")
  | .analysisError _ => "OPENAI_BAD_RESPONSE"
  | .timeoutError _ => "DEADLINE_EXCEEDED"
  | .s3Error _ => "S3_PUT_FAILED"
  | .runtimeError msg =>
      if strContains msg.toLower "s3" then "S3_PUT_FAILED" else "UNKNOWN_ERROR"
  | .otherError msg =>
      if strContains msg.toLower "s3" then "S3_PUT_FAILED" else "UNKNOWN_ERROR"

/-! ### Tile processor (`core/pipeline/tile_processor.py`) -/

/-- `MIN_REMAINING_MS_FOR_OPENAI`. -/
def MIN_REMAINING_MS_FOR_OPENAI : Int := 20000

/-- The configuration fields the processor consults. -/
structure WorkerConfig where
  tilejobs_table : String
  runs_table : String
  s3_bucket : String
  job_stale_lock_seconds : Int
deriving Repr

/-- Externally visible side effects of one `process_tile` invocation,
in program order. -/
inductive Action where
  | claimWrite
  | downloadS3 (bucket key : String)
  | fetchUpstream (source : String)
  | uploadS3 (bucket key : String)
  | checkpointWrite (bucket key : String)
  | openaiCall
  | completeWrite
  | bumpCompleted
  | failWrite (code : String)
  | bumpFailed
deriving DecidableEq, Repr

/-- Oracle for the processor's external calls: the outcome each I/O
stage would have if reached. `failPathOk` covers the `fail_job` +
counter bump pair inside `_handle_failure` (whose own failures are
logged and swallowed). -/
structure WorkerEnv where
  download : Except PyExc String
  fetch : Except PyExc String
  uploadOk : Except PyExc Unit
  analyze : Except PyExc (String × String)
  bumpCompletedOk : Except PyExc Unit
  failPathOk : Bool
  now : Int
  finished : Int

/-- `ProcessTileResult` from `core/schema/models.py`. -/
structure ProcessTileResult where
  status : String
  tile_id : Option String := none
  status_ai : Option String := none
  s3_key : Option String := none
  reason : Option String := none
deriving DecidableEq, Repr

/-- `_handle_failure`: classify the exception, truncate the message to
500 characters, write `FAILED` and bump the failed counter; failures of
those writes are swallowed (`failPathOk = false` leaves the row and the
counters untouched). -/
def _handle_failure (env : WorkerEnv) (exc : PyExc) (r : TileJobRow) :
    TileJobRow × List Action :=
  let code := _exception_to_error_code exc
  if env.failPathOk then
    (fail_job r code ((excMessage exc).take 500) env.finished,
     [.failWrite code, .bumpFailed])
  else (r, [])

/-- The `try` block of `process_tile` (steps 2–6), given the claim's
checkpoint and the post-claim row `r`. Returns the processor outcome,
the row after all writes, and the actions issued inside the block
(exceptions are routed through `_handle_failure` and re-raised). -/
def tileTryBlock (env : WorkerEnv) (m : TileJobMessage) (cfg : WorkerConfig)
    (checkpoint : Option S3Checkpoint) (claimed_at_epoch : Option Int)
    (r : TileJobRow) (remaining_time_ms : Option Int) :
    Except PyExc ProcessTileResult × TileJobRow × List Action :=
  let tile_id := get_tile_id m
  -- Step 2: image bytes from checkpoint or fetch + upload + checkpoint
  let step2 : (Except PyExc (String × String × String)) × TileJobRow × List Action :=
    match checkpoint with
    | some cp =>
        (match env.download with
         | .ok bytes => (.ok (cp.bucket, cp.key, bytes), r,
             [.downloadS3 cp.bucket cp.key])
         | .error e => (.error e, r, [.downloadS3 cp.bucket cp.key]))
    | none =>
        (match env.fetch with
         | .error e => (.error e, r, [.fetchUpstream (sourceStr m.imagery_source)])
         | .ok bytes =>
             let (b, k) := uploadTarget cfg.s3_bucket m
             match env.uploadOk with
             | .error e => (.error e, r,
                 [.fetchUpstream (sourceStr m.imagery_source), .uploadS3 b k])
             | .ok _ => (.ok (b, k, bytes), checkpoint_s3 r b k,
                 [.fetchUpstream (sourceStr m.imagery_source), .uploadS3 b k,
                  .checkpointWrite b k]))
  match step2 with
  | (.error e, r1, acts) =>
      let (r2, facts) := _handle_failure env e r1
      (.error e, r2, acts ++ facts)
  | (.ok (s3b, s3k, _bytes), r1, acts) =>
      -- Step 3: time budget before the OpenAI call
      let budget_exceeded : Bool :=
        match remaining_time_ms with
        | some rem => decide (rem < MIN_REMAINING_MS_FOR_OPENAI)
        | none => false
      if budget_exceeded then
        let e := PyExc.timeoutError "aborting before OpenAI call"
        let (r2, facts) := _handle_failure env e r1
        (.error e, r2, acts ++ facts)
      else
        -- Step 4: analyze
        match env.analyze with
        | .error e =>
            let (r2, facts) := _handle_failure env e r1
            (.error e, r2, acts ++ [.openaiCall] ++ facts)
        | .ok (status_ai, reasoning) =>
            -- Step 5: complete_job; Step 6: bump run counters
            let r2 := complete_job r1 s3b s3k (some status_ai) (some reasoning)
              claimed_at_epoch env.finished
            match env.bumpCompletedOk with
            | .error e =>
                let (r3, facts) := _handle_failure env e r2
                (.error e, r3,
                  acts ++ [.openaiCall, .completeWrite] ++ facts)
            | .ok _ =>
                (.ok ⟨"completed", some tile_id, some status_ai, some s3k, none⟩,
                 r2, acts ++ [.openaiCall, .completeWrite, .bumpCompleted])

/-- `process_tile`: claim, then dispatch on the claim outcome, running
the `try` block on `CLAIMED`. The row returned is the post-state of the
`(run_id, tile_id)` item; the action list is every externally visible
effect in order. -/
def process_tile (env : WorkerEnv) (row0 : Option TileJobRow)
    (m : TileJobMessage) (cfg : WorkerConfig)
    (remaining_time_ms : Option Int) :
    Except PyExc ProcessTileResult × Option TileJobRow × List Action :=
  let tile_id := get_tile_id m
  let claimed := claim_job row0 m env.now cfg.job_stale_lock_seconds
  if claimed.1.result = ClaimResult.ALREADY_COMPLETED then
    (.ok ⟨"skipped", some tile_id, none, none, some "already_completed"⟩,
     claimed.2, [.claimWrite])
  else if claimed.1.result = ClaimResult.LOCKED_BY_OTHER then
    (.error (.runtimeError "Job locked by another worker"), claimed.2, [.claimWrite])
  else
    match claimed.2 with
    | some r =>
        let (res, r1, acts) := tileTryBlock env m cfg claimed.1.checkpoint
          claimed.1.claimed_at_epoch r remaining_time_ms
        (res, some r1, .claimWrite :: acts)
    | none =>
        -- Unreachable: a CLAIMED result always carries the post-image row
        -- (see `claim_CLAIMED_isSome`).
        (.error (.runtimeError "Job locked by another worker"), none, [.claimWrite])

/-! ### Worker Lambda handler (`lambdas/tile_worker/handler.py`) -/

/-- One SQS record as the handler sees it, with the combined
`json.loads` + `TileJobMessage.model_validate` outcome at the parse
boundary (the parser itself is library code outside the repository). -/
structure SQSRecord where
  message_id : String
  body_parse : Except String TileJobMessage

/-- The handler's response dictionary, or a propagated exception
(which makes the queue redeliver the message). -/
inductive HandlerResponse where
  | no_records
  | invalid_message (error : String)
  | processed (result : ProcessTileResult)
deriving DecidableEq, Repr

/-- `_async_handler`: empty batch → `no_records`; parse/validation
failure → `invalid_message` returned normally (message acknowledged, no
further processing); otherwise run `process_tile`, propagating its
exception. Returns the response (or exception), the post-state of the
tile row, and the actions performed. -/
def async_handler (env : WorkerEnv) (row0 : Option TileJobRow)
    (cfg : WorkerConfig) (records : List SQSRecord)
    (remaining_time_ms : Option Int) :
    Except PyExc HandlerResponse × Option TileJobRow × List Action :=
  match records with
  | [] => (.ok .no_records, row0, [])
  | record :: _ =>
      match record.body_parse with
      | .error e => (.ok (.invalid_message e), row0, [])
      | .ok m =>
          let (res, row1, acts) := process_tile env row0 m cfg remaining_time_ms
          match res with
          | .error exc => (.error exc, row1, acts)
          | .ok r => (.ok (.processed r), row1, acts)

/-! ### Ingest driver run-id derivation (`scripts/start_run.py`) -/

/-- UTF-8 encoding of one Unicode code point. -/
def utf8EncodeChar (c : Nat) : List Nat :=
  if c < 0x80 then [c]
  else if c < 0x800 then
    [0xC0 ||| (c >>> 6), 0x80 ||| (c &&& 0x3F)]
  else if c < 0x10000 then
    [0xE0 ||| (c >>> 12), 0x80 ||| ((c >>> 6) &&& 0x3F), 0x80 ||| (c &&& 0x3F)]
  else
    [0xF0 ||| (c >>> 18), 0x80 ||| ((c >>> 12) &&& 0x3F),
     0x80 ||| ((c >>> 6) &&& 0x3F), 0x80 ||| (c &&& 0x3F)]

/-- UTF-8 bytes of a string (`.encode("utf-8")`). -/
def utf8Bytes (s : String) : List Nat :=
  (s.toList.map (fun c => utf8EncodeChar c.toNat)).flatten

/-- 32-bit left rotation. -/
def rotl32 (x n : Nat) : Nat :=
  ((x <<< n) ||| (x >>> (32 - n))) % 2 ^ 32

/-- SHA-1 message padding: `0x80`, zeros to 56 mod 64, then the bit
length as eight big-endian bytes. -/
def sha1Pad (msg : List Nat) : List Nat :=
  let len := msg.length
  let r := (len + 1) % 64
  let zeros := (120 - r) % 64
  msg ++ [0x80] ++ List.replicate zeros 0 ++
    (List.range 8).map (fun i => (len * 8) >>> (8 * (7 - i)) % 256)

/-- Split a byte list into 64-byte chunks. -/
def chunksAux : Nat → List Nat → List (List Nat)
  | 0, _ => []
  | _, [] => []
  | fuel + 1, l => l.take 64 :: chunksAux fuel (l.drop 64)

/-- All 64-byte chunks of a padded message. -/
def chunks64 (l : List Nat) : List (List Nat) := chunksAux l.length l

/-- Big-endian 32-bit word `i` of a 64-byte chunk. -/
def chunkWord (chunk : List Nat) (i : Nat) : Nat :=
  (chunk.getD (4 * i) 0) <<< 24 ||| (chunk.getD (4 * i + 1) 0) <<< 16 |||
    (chunk.getD (4 * i + 2) 0) <<< 8 ||| chunk.getD (4 * i + 3) 0

/-- The 80-word SHA-1 message schedule of one chunk. -/
def sha1Schedule (chunk : List Nat) : List Nat :=
  (List.range 64).foldl
    (fun w _ =>
      let n := w.length
      w ++ [rotl32 ((w.getD (n - 3) 0) ^^^ (w.getD (n - 8) 0) ^^^
        (w.getD (n - 14) 0) ^^^ (w.getD (n - 16) 0)) 1])
    ((List.range 16).map (chunkWord chunk))

/-- SHA-1 compression of one 64-byte chunk. -/
def sha1ProcessChunk (h : Nat × Nat × Nat × Nat × Nat) (chunk : List Nat) :
    Nat × Nat × Nat × Nat × Nat :=
  let (h0, h1, h2, h3, h4) := h
  let step := fun (st : Nat × Nat × Nat × Nat × Nat) (p : Nat × Nat) =>
    let (i, wi) := p
    let (a, b, c, d, e) := st
    let f :=
      if i < 20 then (b &&& c) ||| ((b ^^^ 0xFFFFFFFF) &&& d)
      else if i < 40 then b ^^^ c ^^^ d
      else if i < 60 then (b &&& c) ||| (b &&& d) ||| (c &&& d)
      else b ^^^ c ^^^ d
    let k :=
      if i < 20 then 0x5A827999
      else if i < 40 then 0x6ED9EBA1
      else if i < 60 then 0x8F1BBCDC
      else 0xCA62C1D6
    let temp := (rotl32 a 5 + f + e + k + wi) % 2 ^ 32
    (temp, a, rotl32 b 30, c, d)
  let fin := (sha1Schedule chunk).enum.foldl step (h0, h1, h2, h3, h4)
  ((h0 + fin.1) % 2 ^ 32, (h1 + fin.2.1) % 2 ^ 32, (h2 + fin.2.2.1) % 2 ^ 32,
   (h3 + fin.2.2.2.1) % 2 ^ 32, (h4 + fin.2.2.2.2) % 2 ^ 32)

/-- The five SHA-1 state words of a byte message. -/
def sha1Words (msg : List Nat) : Nat × Nat × Nat × Nat × Nat :=
  (chunks64 (sha1Pad msg)).foldl sha1ProcessChunk
    (0x67452301, 0xEFCDAB89, 0x98BADCFE, 0x10325476, 0xC3D2E1F0)

/-- Lower-case hexadecimal digit. -/
def hexDigit (n : Nat) : Char :=
  if n < 10 then Char.ofNat ('0'.toNat + n) else Char.ofNat ('a'.toNat + n - 10)

/-- Eight-hex-digit big-endian rendering of a 32-bit word. -/
def toHex8 (n : Nat) : String :=
  String.mk ((List.range 8).map (fun i => hexDigit ((n >>> (4 * (7 - i))) % 16)))

/-- `hashlib.sha1(s.encode("utf-8")).hexdigest()`. -/
def sha1Hex (s : String) : String :=
  let h := sha1Words (utf8Bytes s)
  toHex8 h.1 ++ toHex8 h.2.1 ++ toHex8 h.2.2.1 ++ toHex8 h.2.2.2.1 ++
    toHex8 h.2.2.2.2

/-- `_compute_run_id` from `scripts/start_run.py`:
`f"run_{hashlib.sha1(f"{bucket}:{key}:{etag}".encode()).hexdigest()[:12]}"`. -/
def _compute_run_id (bucket key etag : String) : String :=
  "run_" ++ (sha1Hex (bucket ++ ":" ++ key ++ ":" ++ etag)).take 12

/-! ## Theorems -/

set_option maxRecDepth 4000 in
/-- Validation of the SHA-1 implementation against the standard test
vector `sha1("abc")`. -/
theorem sha1Hex_abc :
    sha1Hex "abc" = "a9993e364706816aba3e25717850c26c9cd0d89d" := by decide

set_option maxRecDepth 4000 in
/-- Validation of the SHA-1 implementation on the empty string. -/
theorem sha1Hex_empty :
    sha1Hex "" = "da39a3ee5e6b4b0d3255bfef95601890afd80709" := by decide

set_option maxRecDepth 4000 in
/-- C9 counterexample: the ingest driver's run identifier for the
manifest `(bucket, key, etag) = ("b", "k", "e")` is
`"run_68941a801758"`, not the first 12 hex digits `"68941a801758"` of
SHA-1 over `"b:k:e"` — the claim omits the `"run_"` prefix. -/
theorem C9_run_id_counterexample :
    _compute_run_id "b" "k" "e" ≠
      (sha1Hex ("b" ++ ":" ++ "k" ++ ":" ++ "e")).take 12 := by decide

/-- C9 (amended): for every manifest, the run identifier computed by the
ingest driver equals `"run_"` followed by the first 12 hex digits of
SHA-1 over the string `"{bucket}:{key}:{etag}"`. -/
theorem C9_run_id_amended (bucket key etag : String) :
    _compute_run_id bucket key etag =
      "run_" ++ (sha1Hex (bucket ++ ":" ++ key ++ ":" ++ etag)).take 12 := rfl

/-- C8: for every SQS record whose body fails JSON parsing or
`TileJobMessage` validation, the worker handler returns the normal
response `invalid_message` (so the message is acknowledged, never
retried), raises nothing, leaves the tile row untouched, and performs
no claim, no table write and no counter update. -/
theorem C8_poison_acknowledged (env : WorkerEnv) (row0 : Option TileJobRow)
    (cfg : WorkerConfig) (record : SQSRecord) (rest : List SQSRecord)
    (remaining_time_ms : Option Int) (e : String)
    (hp : record.body_parse = .error e) :
    async_handler env row0 cfg (record :: rest) remaining_time_ms =
      (.ok (.invalid_message e), row0, []) := by
  simp [async_handler, hp]

/-- C8 witness: a concrete poison record. -/
theorem C8_poison_acknowledged_witness :
    async_handler
      ⟨.ok "img", .ok "img", .ok (), .ok ("ok", "r"), .ok (), true, 0, 1⟩
      none ⟨"tj", "runs", "bkt", 900⟩
      [⟨"m1", .error "bad json"⟩] none =
      (.ok (.invalid_message "bad json"), none, []) :=
  C8_poison_acknowledged _ none _ ⟨"m1", .error "bad json"⟩ [] none "bad json" rfl

/-- Example messages used by concrete witnesses. -/
def googleMsgNoZoom : TileJobMessage :=
  { run_id := "r", imagery_source := .google, lat := some (1/2), lon := some (1/4) }

/-- A google message matching the spec's canonical-identity example
(`lat = 1.2345678`). -/
def googleMsgA : TileJobMessage :=
  { run_id := "r", imagery_source := .google, lat := some (12345678/10000000),
    lon := some (1/2) }

/-- A google message matching the spec's canonical-identity example
(`lat = 1.2345681`). -/
def googleMsgB : TileJobMessage :=
  { run_id := "r", imagery_source := .google, lat := some (12345681/10000000),
    lon := some (1/2) }

/-- C10: for a valid google message whose `zoom` is omitted, `claim_job`
serializes the `:zoom` attribute value as Python `str(None) = "None"`;
when the row's `zoom` attribute is absent that is what gets stored —
never the default 18 that `get_zoom`, `get_tile_id` and the S3 key
derivation substitute. -/
theorem C10_zoom_none_serialized (m : TileJobMessage) (now lock_seconds : Int)
    (hg : m.imagery_source = .google) (hz : m.zoom = none)
    (hv : validMessage m = true) :
    pyStrOptInt m.zoom = "None" ∧
    (∀ row : Option TileJobRow,
      (applyClaim row m now lock_seconds).zoom =
        some ((row.bind TileJobRow.zoom).getD "None")) ∧
    (∀ row : Option TileJobRow, row.bind TileJobRow.zoom = none →
      (applyClaim row m now lock_seconds).zoom = some "None" ∧
      (applyClaim row m now lock_seconds).zoom ≠ some (pyStrInt DEFAULT_GOOGLE_ZOOM)) ∧
    get_zoom m = 18 ∧
    get_tile_id m = tile_id_for_coords ((m.lat).getD 0) ((m.lon).getD 0) 18 ∧
    (∀ cfg_bucket, (uploadTarget cfg_bucket m).2 =
      google_coord_key m.run_id ((m.lat).getD 0) ((m.lon).getD 0) (some 18) "png") := by
  have h18 : pyStrInt DEFAULT_GOOGLE_ZOOM = "18" := by decide
  refine ⟨by simp [pyStrOptInt, hz], ?_, ?_, ?_, ?_, ?_⟩
  · intro row
    cases row with
    | none => simp [applyClaim, hg, hz, pyStrOptInt]
    | some r =>
        cases hr : r.zoom <;>
          simp [applyClaim, hg, hz, pyStrOptInt, hr, Option.getD]
  · intro row hrow
    cases row with
    | none => simp [applyClaim, hg, hz, pyStrOptInt, h18]
    | some r =>
        simp only [Option.bind] at hrow
        cases hr : r.zoom with
        | none =>
            constructor
            · simp [applyClaim, hg, hz, pyStrOptInt, hr]
            · simp [applyClaim, hg, hz, pyStrOptInt, hr, h18]
        | some v => simp [hr] at hrow
  · simp [get_zoom, hz, DEFAULT_GOOGLE_ZOOM]
  · simp [get_tile_id, hg, hz, DEFAULT_GOOGLE_ZOOM]
  · intro cb
    simp [uploadTarget, hg, get_zoom, hz, DEFAULT_GOOGLE_ZOOM]

/-- The witness message passes pydantic validation. -/
theorem googleMsgNoZoom_valid : validMessage googleMsgNoZoom = true := by
  norm_num [validMessage, googleMsgNoZoom]

/-- C10 witness: the concrete google message `lat = 1/2, lon = 1/4`
with `zoom` omitted, claimed against an absent row. -/
theorem C10_zoom_none_serialized_witness :
    (applyClaim none googleMsgNoZoom 10 900).zoom = some "None" ∧
    get_zoom googleMsgNoZoom = 18 :=
  ⟨((C10_zoom_none_serialized googleMsgNoZoom 10 900 rfl rfl
      googleMsgNoZoom_valid).2.2.1 none rfl).1,
   (C10_zoom_none_serialized googleMsgNoZoom 10 900 rfl rfl
      googleMsgNoZoom_valid).2.2.2.1⟩

/-- C7: `get_tile_id` returns `"{z}/{x}/{y}"` for mapbox messages and
`"coord:{lat:.6f},{lon:.6f},{zoom}"` for google messages, where the
coordinates are formatted to six fractional digits (round half to even,
via `formatFixed6`) and the zoom is the effective zoom (18 when
omitted); consequently two google messages whose coordinates round to
the same 6-decimal strings and that share the effective zoom get equal
tile ids. -/
theorem C7_canonical_tile_id :
    (∀ m : TileJobMessage, validMessage m = true → m.imagery_source = .mapbox →
      ∃ z x y, m.z = some z ∧ m.x = some x ∧ m.y = some y ∧
        get_tile_id m = pyStrInt z ++ "/" ++ pyStrInt x ++ "/" ++ pyStrInt y) ∧
    (∀ m : TileJobMessage, validMessage m = true → m.imagery_source = .google →
      ∃ la lo, m.lat = some la ∧ m.lon = some lo ∧
        get_tile_id m = "coord:" ++ formatFixed6 la ++ "," ++ formatFixed6 lo ++
          "," ++ pyStrInt (get_zoom m) ∧
        (m.zoom = none → get_zoom m = 18)) ∧
    (∀ m₁ m₂ : TileJobMessage,
      m₁.imagery_source = .google → m₂.imagery_source = .google →
      formatFixed6 ((m₁.lat).getD 0) = formatFixed6 ((m₂.lat).getD 0) →
      formatFixed6 ((m₁.lon).getD 0) = formatFixed6 ((m₂.lon).getD 0) →
      get_zoom m₁ = get_zoom m₂ →
      get_tile_id m₁ = get_tile_id m₂) := by
  refine ⟨?_, ?_, ?_⟩
  · intro m hv hs
    have hz : ∃ z, m.z = some z := by
      cases hzo : m.z with
      | none => simp [validMessage, hs, hzo] at hv
      | some z => exact ⟨z, rfl⟩
    have hx : ∃ x, m.x = some x := by
      cases hxo : m.x with
      | none => simp [validMessage, hs, hxo] at hv
      | some x => exact ⟨x, rfl⟩
    have hy : ∃ y, m.y = some y := by
      cases hyo : m.y with
      | none => simp [validMessage, hs, hyo] at hv
      | some y => exact ⟨y, rfl⟩
    obtain ⟨z, hz⟩ := hz
    obtain ⟨x, hx⟩ := hx
    obtain ⟨y, hy⟩ := hy
    exact ⟨z, x, y, hz, hx, hy,
      by simp [get_tile_id, hs, hz, hx, hy, pyStrOptInt]⟩
  · intro m hv hs
    have hla : ∃ la, m.lat = some la := by
      cases hlo : m.lat with
      | none => simp [validMessage, hs, hlo] at hv
      | some la => exact ⟨la, rfl⟩
    have hlo : ∃ lo, m.lon = some lo := by
      cases hloo : m.lon with
      | none => simp [validMessage, hs, hloo] at hv
      | some lo => exact ⟨lo, rfl⟩
    obtain ⟨la, hla⟩ := hla
    obtain ⟨lo, hlo⟩ := hlo
    clear hv
    refine ⟨la, lo, hla, hlo, ?_,
      fun hzn => by simp [get_zoom, hzn, DEFAULT_GOOGLE_ZOOM]⟩
    cases hz : m.zoom <;>
      simp [get_tile_id, hs, hla, hlo, tile_id_for_coords, get_zoom, hz]
  · intro m₁ m₂ h1 h2 hla hlo hz
    have hz2 : (m₁.zoom).getD DEFAULT_GOOGLE_ZOOM = (m₂.zoom).getD DEFAULT_GOOGLE_ZOOM := by
      cases hz1 : m₁.zoom <;> cases hz3 : m₂.zoom <;>
        simpa [get_zoom, hz1, hz3] using hz
    simp [get_tile_id, h1, h2, tile_id_for_coords, hla, hlo, hz2]

/-- `1.2345678` rounds to the 6-decimal string `"1.234568"`. -/
theorem formatFixed6_latA : formatFixed6 (12345678/10000000 : ℚ) = "1.234568" := by
  have habs : |(12345678/10000000 : ℚ)| * 1000000 = 6172839/5 := by
    rw [abs_of_nonneg (by norm_num)]; norm_num
  have hfl : (⌊(6172839/5 : ℚ)⌋ : Int) = 1234567 := by
    rw [Int.floor_eq_iff] <;> norm_num
  have hr : roundHalfEvenQ ((6172839/5 : ℚ)) = 1234568 := by
    simp only [roundHalfEvenQ, hfl]; norm_num
  have hneg : ¬ (12345678/10000000 : ℚ) < 0 := by norm_num
  simp only [formatFixed6, habs, hr, if_neg hneg]
  decide

/-- `1.2345681` rounds to the 6-decimal string `"1.234568"` as well. -/
theorem formatFixed6_latB : formatFixed6 (12345681/10000000 : ℚ) = "1.234568" := by
  have habs : |(12345681/10000000 : ℚ)| * 1000000 = 12345681/10 := by
    rw [abs_of_nonneg (by norm_num)]; norm_num
  have hfl : (⌊(12345681/10 : ℚ)⌋ : Int) = 1234568 := by
    rw [Int.floor_eq_iff] <;> norm_num
  have hr : roundHalfEvenQ ((12345681/10 : ℚ)) = 1234568 := by
    simp only [roundHalfEvenQ, hfl]; norm_num
  have hneg : ¬ (12345681/10000000 : ℚ) < 0 := by norm_num
  simp only [formatFixed6, habs, hr, if_neg hneg]
  decide

/-- C7 witness: the spec's canonical-identity example — latitudes
`1.2345678` and `1.2345681` both round to `"1.234568"`, so the two
google messages share a tile id. -/
theorem C7_canonical_tile_id_witness :
    get_tile_id googleMsgA = get_tile_id googleMsgB :=
  C7_canonical_tile_id.2.2 googleMsgA googleMsgB rfl rfl
    (formatFixed6_latA.trans formatFixed6_latB.symm) rfl rfl

/-- The claim-condition expression, characterised as a proposition. -/
theorem claimCondition_iff (row : Option TileJobRow) (now : Int) :
    claimCondition row now = true ↔
      (row = none ∨ ∃ r, row = some r ∧
        (r.status = JobStatus.PENDING ∨ r.status = JobStatus.FAILED ∨
          (r.status = JobStatus.PROCESSING ∧
            (r.lock_until_epoch = none ∨
              ∃ lock, r.lock_until_epoch = some lock ∧ lock < now)))) := by
  cases row with
  | none => simp [claimCondition]
  | some r =>
      cases hs : r.status <;> cases hl : r.lock_until_epoch <;>
        simp [claimCondition, hs, hl]

/-- A claim returns `CLAIMED` exactly when the conditional write's
predicate holds. -/
theorem claim_job_CLAIMED_iff (row : Option TileJobRow) (m : TileJobMessage)
    (now lock_seconds : Int) :
    (claim_job row m now lock_seconds).1.result = ClaimResult.CLAIMED ↔
      claimCondition row now = true := by
  rw [claim_job]
  rcases hc : claimCondition row now with _ | _
  · simp only [Bool.false_eq_true, if_false]
    by_cases hcs : row.map TileJobRow.status = some JobStatus.COMPLETED <;>
      simp [hcs]
  · simp

/-- On `CLAIMED` the adapter returns the conditional update's
post-image. -/
theorem claim_job_CLAIMED_row (row : Option TileJobRow) (m : TileJobMessage)
    (now lock_seconds : Int)
    (h : (claim_job row m now lock_seconds).1.result = ClaimResult.CLAIMED) :
    (claim_job row m now lock_seconds).2 =
      some (applyClaim row m now lock_seconds) := by
  have hc := (claim_job_CLAIMED_iff row m now lock_seconds).mp h
  rw [claim_job, hc]
  simp

/-- The fields of the claim's update expression common to both imagery
sources, plus preservation of the checkpoint attributes. -/
theorem applyClaim_common (row : Option TileJobRow) (m : TileJobMessage)
    (now L : Int) :
    (applyClaim row m now L).status = JobStatus.PROCESSING ∧
    (applyClaim row m now L).attempts =
      some (((row.bind TileJobRow.attempts)).getD 0 + 1) ∧
    (applyClaim row m now L).lock_until_epoch = some (now + L) ∧
    (applyClaim row m now L).started_at_epoch =
      some (((row.bind TileJobRow.started_at_epoch)).getD now) ∧
    (applyClaim row m now L).last_claimed_at_epoch = some now ∧
    (applyClaim row m now L).imagery_source =
      some (((row.bind TileJobRow.imagery_source)).getD (sourceStr m.imagery_source)) ∧
    (applyClaim row m now L).s3_bucket = row.bind TileJobRow.s3_bucket ∧
    (applyClaim row m now L).s3_key = row.bind TileJobRow.s3_key := by
  rcases hms : m.imagery_source with _ | _ <;> cases row <;>
    simp [applyClaim, hms]
  all_goals
    rcases hr : m.region with _ | reg <;> simp [hr]
  all_goals
    by_cases hreg : reg = "" <;> simp [hreg]

/-- The mapbox coordinate clauses of the update expression. -/
theorem applyClaim_mapbox (row : Option TileJobRow) (m : TileJobMessage)
    (now L : Int) (hms : m.imagery_source = .mapbox) :
    (applyClaim row m now L).z =
      some ((row.bind TileJobRow.z).getD (pyStrOptInt m.z)) ∧
    (applyClaim row m now L).x =
      some ((row.bind TileJobRow.x).getD (pyStrOptInt m.x)) ∧
    (applyClaim row m now L).y =
      some ((row.bind TileJobRow.y).getD (pyStrOptInt m.y)) ∧
    (∀ reg, m.region = some reg → reg ≠ "" →
      (applyClaim row m now L).region =
        some ((row.bind TileJobRow.region).getD reg)) ∧
    ((m.region = none ∨ m.region = some "") →
      (applyClaim row m now L).region = row.bind TileJobRow.region) := by
  refine ⟨?_, ?_, ?_, ?_, ?_⟩
  · cases row <;> rcases hr : m.region with _ | reg <;>
      simp [applyClaim, hms, hr]
    all_goals by_cases hreg : reg = "" <;> simp [hreg]
  · cases row <;> rcases hr : m.region with _ | reg <;>
      simp [applyClaim, hms, hr]
    all_goals by_cases hreg : reg = "" <;> simp [hreg]
  · cases row <;> rcases hr : m.region with _ | reg <;>
      simp [applyClaim, hms, hr]
    all_goals by_cases hreg : reg = "" <;> simp [hreg]
  · intro reg hr hne
    cases row <;> simp [applyClaim, hms, hr, hne]
  · intro hr
    rcases hr with hr | hr <;> cases row <;> simp [applyClaim, hms, hr]

/-- The google coordinate clauses of the update expression. -/
theorem applyClaim_google (row : Option TileJobRow) (m : TileJobMessage)
    (now L : Int) (hms : m.imagery_source = .google) :
    (applyClaim row m now L).lat =
      some ((row.bind TileJobRow.lat).getD (pyStrOptRat m.lat)) ∧
    (applyClaim row m now L).lon =
      some ((row.bind TileJobRow.lon).getD (pyStrOptRat m.lon)) ∧
    (applyClaim row m now L).zoom =
      some ((row.bind TileJobRow.zoom).getD (pyStrOptInt m.zoom)) := by
  cases row <;> simp [applyClaim, hms]

/-- C1: for every valid message and every prior row state, `claim_job`
succeeds exactly when the row is absent, or its status is PENDING or
FAILED, or its status is PROCESSING with `lock_until_epoch` missing or
strictly below `now`; and a successful claim applies the single
mutation that sets status to PROCESSING, increments `attempts` by one
(from 0 when absent), sets `lock_until_epoch = now + lock_seconds`,
sets `started_at_epoch` only if absent, sets `last_claimed_at_epoch =
now`, and writes `imagery_source`, the coordinate fields and the
optional region only if they are absent. -/
theorem C1_claim_predicate_and_mutation (row : Option TileJobRow)
    (m : TileJobMessage) (now lock_seconds : Int)
    (hv : validMessage m = true) :
    ((claim_job row m now lock_seconds).1.result = ClaimResult.CLAIMED ↔
      (row = none ∨ ∃ r, row = some r ∧
        (r.status = JobStatus.PENDING ∨ r.status = JobStatus.FAILED ∨
          (r.status = JobStatus.PROCESSING ∧
            (r.lock_until_epoch = none ∨
              ∃ lock, r.lock_until_epoch = some lock ∧ lock < now))))) ∧
    ((claim_job row m now lock_seconds).1.result = ClaimResult.CLAIMED →
      ∃ new, (claim_job row m now lock_seconds).2 = some new ∧
        new.status = JobStatus.PROCESSING ∧
        new.attempts = some (((row.bind TileJobRow.attempts)).getD 0 + 1) ∧
        new.lock_until_epoch = some (now + lock_seconds) ∧
        new.started_at_epoch =
          some (((row.bind TileJobRow.started_at_epoch)).getD now) ∧
        new.last_claimed_at_epoch = some now ∧
        new.imagery_source =
          some (((row.bind TileJobRow.imagery_source)).getD (sourceStr m.imagery_source)) ∧
        new.s3_bucket = row.bind TileJobRow.s3_bucket ∧
        new.s3_key = row.bind TileJobRow.s3_key ∧
        (m.imagery_source = .mapbox →
          new.z = some ((row.bind TileJobRow.z).getD (pyStrOptInt m.z)) ∧
          new.x = some ((row.bind TileJobRow.x).getD (pyStrOptInt m.x)) ∧
          new.y = some ((row.bind TileJobRow.y).getD (pyStrOptInt m.y)) ∧
          (∀ reg, m.region = some reg → reg ≠ "" →
            new.region = some ((row.bind TileJobRow.region).getD reg)) ∧
          ((m.region = none ∨ m.region = some "") →
            new.region = row.bind TileJobRow.region)) ∧
        (m.imagery_source = .google →
          new.lat = some ((row.bind TileJobRow.lat).getD (pyStrOptRat m.lat)) ∧
          new.lon = some ((row.bind TileJobRow.lon).getD (pyStrOptRat m.lon)) ∧
          new.zoom = some ((row.bind TileJobRow.zoom).getD (pyStrOptInt m.zoom)))) := by
  constructor
  · exact (claim_job_CLAIMED_iff row m now lock_seconds).trans
      (claimCondition_iff row now)
  · intro hres
    refine ⟨applyClaim row m now lock_seconds,
      claim_job_CLAIMED_row row m now lock_seconds hres, ?_⟩
    obtain ⟨h1, h2, h3, h4, h5, h6, h7, h8⟩ := applyClaim_common row m now lock_seconds
    refine ⟨h1, h2, h3, h4, h5, h6, h7, h8, ?_, ?_⟩
    · intro hms; exact applyClaim_mapbox row m now lock_seconds hms
    · intro hms; exact applyClaim_google row m now lock_seconds hms

/-- The spec's fresh-tile example message `{run_id: "run_x",
source: "mapbox", z: 14, x: 8716, y: 5378}`. -/
def mapboxMsg : TileJobMessage :=
  { run_id := "run_x", imagery_source := .mapbox, z := some 14,
    x := some 8716, y := some 5378 }

/-- C1 witness: claiming the fresh mapbox message against an absent row
succeeds. -/
theorem C1_claim_predicate_and_mutation_witness :
    (claim_job none mapboxMsg 1000 900).1.result = ClaimResult.CLAIMED :=
  (C1_claim_predicate_and_mutation none mapboxMsg 1000 900 (by decide)).1.mpr
    (Or.inl rfl)

/-- A COMPLETED row as left behind by `complete_job`. -/
def completedRow : TileJobRow :=
  { status := JobStatus.COMPLETED, attempts := some 1,
    finished_at_epoch := some 50, s3_bucket := some "bkt",
    s3_key := some "runs/run_x/tiles/z=14/x=8716/y=5378.jpg" }

/-- C2 counterexample: `fail_job` is an unconditional write, so applied
to a COMPLETED row it moves the status to FAILED — the claim that no
core operation ever changes a COMPLETED row's status away from
COMPLETED is false for `fail_job` (and hence for the processor's
failure path, which calls it). -/
theorem C2_completed_terminal_counterexample :
    completedRow.status = JobStatus.COMPLETED ∧
    (fail_job completedRow "UNKNOWN_ERROR" "boom" 100).status ≠
      JobStatus.COMPLETED := by
  constructor
  · rfl
  · simp [fail_job, completedRow]

/-- C2 (amended): once a row is COMPLETED, `claim_job` refuses the
claim (returning `ALREADY_COMPLETED` and leaving the row unchanged),
`checkpoint_s3` and `complete_job` never move the status away from
COMPLETED; `fail_job`, however, is unconditional and overwrites the
status with FAILED even on a COMPLETED row. -/
theorem C2_completed_terminal_amended (r : TileJobRow)
    (h : r.status = JobStatus.COMPLETED) :
    (∀ m now L, (claim_job (some r) m now L).1.result =
        ClaimResult.ALREADY_COMPLETED ∧
      (claim_job (some r) m now L).2 = some r) ∧
    (∀ b k, (checkpoint_s3 r b k).status = JobStatus.COMPLETED) ∧
    (∀ b k sai rs ca fin,
      (complete_job r b k sai rs ca fin).status = JobStatus.COMPLETED) ∧
    (∀ c msg fin, (fail_job r c msg fin).status = JobStatus.FAILED) := by
  refine ⟨?_, ?_, ?_, ?_⟩
  · intro m now L
    have hc : claimCondition (some r) now = false := by
      simp [claimCondition, h]
    rw [claim_job, hc]
    simp [h]
  · intro b k
    simp [checkpoint_s3, h]
  · intro b k sai rs ca fin
    rcases sai <;> rcases rs <;> rcases ca <;> simp [complete_job]
  · intro c msg fin
    simp [fail_job]

/-- C2 witness: re-claiming the concrete COMPLETED row is refused. -/
theorem C2_completed_terminal_witness :
    (claim_job (some completedRow) mapboxMsg 5 900).1.result =
      ClaimResult.ALREADY_COMPLETED :=
  ((C2_completed_terminal_amended completedRow rfl).1 mapboxMsg 5 900).1

/-- C4: when the conditional write is rejected, `claim_job` re-reads the
status and returns `ALREADY_COMPLETED` exactly for COMPLETED and
`LOCKED_BY_OTHER` otherwise, leaving the row unmodified; the processor
then acknowledges with a skipped result on `ALREADY_COMPLETED`, and on
`LOCKED_BY_OTHER` raises a retryable error having written nothing — in
particular no FAILED write. -/
theorem C4_rejection_paths (r : TileJobRow) (m : TileJobMessage)
    (env : WorkerEnv) (cfg : WorkerConfig) (rem : Option Int)
    (hrej : claimCondition (some r) env.now = false) :
    ((claim_job (some r) m env.now cfg.job_stale_lock_seconds).1.result =
      (if r.status = JobStatus.COMPLETED then ClaimResult.ALREADY_COMPLETED
       else ClaimResult.LOCKED_BY_OTHER)) ∧
    (claim_job (some r) m env.now cfg.job_stale_lock_seconds).2 = some r ∧
    (r.status = JobStatus.COMPLETED →
      process_tile env (some r) m cfg rem =
        (.ok ⟨"skipped", some (get_tile_id m), none, none,
           some "already_completed"⟩, some r, [.claimWrite])) ∧
    (r.status ≠ JobStatus.COMPLETED →
      process_tile env (some r) m cfg rem =
        (.error (.runtimeError "Job locked by another worker"),
         some r, [.claimWrite])) := by
  refine ⟨?_, ?_, ?_, ?_⟩
  · rw [claim_job, hrej]
    by_cases hst : r.status = JobStatus.COMPLETED <;> simp [hst]
  · rw [claim_job, hrej]
    simp
  · intro hst
    simp [process_tile, claim_job, hrej, hst]
  · intro hst
    simp [process_tile, claim_job, hrej, hst]

/-- C4 witness: a PROCESSING row under a live lock; the claim is
rejected, the re-read is not COMPLETED, so the outcome is
`LOCKED_BY_OTHER` with the row intact. -/
theorem C4_rejection_paths_witness :
    (claim_job
        (some { status := JobStatus.PROCESSING, lock_until_epoch := some 999 })
        mapboxMsg
        (WorkerEnv.now ⟨.ok "img", .ok "img", .ok (), .ok ("ok", "r"), .ok (),
          true, 10, 20⟩)
        (WorkerConfig.job_stale_lock_seconds ⟨"tj", "runs", "bkt", 900⟩)).1.result =
      (if ({ status := JobStatus.PROCESSING, lock_until_epoch := some 999 } :
          TileJobRow).status = JobStatus.COMPLETED then
        ClaimResult.ALREADY_COMPLETED
       else ClaimResult.LOCKED_BY_OTHER) :=
  (C4_rejection_paths { status := JobStatus.PROCESSING, lock_until_epoch := some 999 }
    mapboxMsg ⟨.ok "img", .ok "img", .ok (), .ok ("ok", "r"), .ok (), true, 10, 20⟩
    ⟨"tj", "runs", "bkt", 900⟩ none (by decide)).1

/-- With a checkpoint present, the processor's try block downloads from
object storage and never fetches upstream, uploads, or writes a new
checkpoint, on every branch of the oracle. -/
theorem tileTryBlock_with_checkpoint (env : WorkerEnv) (m : TileJobMessage)
    (cfg : WorkerConfig) (cp : S3Checkpoint) (ca : Option Int)
    (r : TileJobRow) (rem : Option Int) :
    Action.downloadS3 cp.bucket cp.key ∈
      (tileTryBlock env m cfg (some cp) ca r rem).2.2 ∧
    ∀ a ∈ (tileTryBlock env m cfg (some cp) ca r rem).2.2,
      (∀ src, a ≠ Action.fetchUpstream src) ∧
      (∀ b2 k2, a ≠ Action.uploadS3 b2 k2) ∧
      (∀ b2 k2, a ≠ Action.checkpointWrite b2 k2) := by
  rcases hd : env.download with e | bytes <;>
    rcases hf : env.failPathOk with _ | _ <;>
      rcases ha : env.analyze with e2 | p <;>
        rcases hbc : env.bumpCompletedOk with e3 | u <;>
          rcases hrem : rem with _ | t <;>
            simp [tileTryBlock, _handle_failure, hd, hf, ha, hbc] <;>
              by_cases hbud : t < MIN_REMAINING_MS_FOR_OPENAI <;>
                simp [hbud, _handle_failure, hf]

/-- C3: when the row already carries an S3 checkpoint `(b, k)` and a
later claim returns `CLAIMED`, the returned checkpoint equals `(b, k)`,
and the processor downloads the object instead of fetching upstream:
its trace contains the S3 download and no upstream fetch, no upload and
no new checkpoint write. -/
theorem C3_checkpoint_resume (r : TileJobRow) (m : TileJobMessage)
    (env : WorkerEnv) (cfg : WorkerConfig) (rem : Option Int) (b k : String)
    (hb : r.s3_bucket = some b) (hk : r.s3_key = some k)
    (hbne : b ≠ "") (hkne : k ≠ "")
    (hclaimed : (claim_job (some r) m env.now cfg.job_stale_lock_seconds).1.result =
      ClaimResult.CLAIMED) :
    (claim_job (some r) m env.now cfg.job_stale_lock_seconds).1.checkpoint =
      some ⟨b, k⟩ ∧
    Action.downloadS3 b k ∈ (process_tile env (some r) m cfg rem).2.2 ∧
    (∀ src, Action.fetchUpstream src ∉ (process_tile env (some r) m cfg rem).2.2) ∧
    (∀ b2 k2, Action.uploadS3 b2 k2 ∉ (process_tile env (some r) m cfg rem).2.2) ∧
    (∀ b2 k2, Action.checkpointWrite b2 k2 ∉
      (process_tile env (some r) m cfg rem).2.2) := by
  have hc := (claim_job_CLAIMED_iff (some r) m env.now
    cfg.job_stale_lock_seconds).mp hclaimed
  have hsb : (applyClaim (some r) m env.now cfg.job_stale_lock_seconds).s3_bucket =
      some b := by
    rw [(applyClaim_common (some r) m env.now cfg.job_stale_lock_seconds).2.2.2.2.2.2.1]
    simpa using hb
  have hsk : (applyClaim (some r) m env.now cfg.job_stale_lock_seconds).s3_key =
      some k := by
    rw [(applyClaim_common (some r) m env.now cfg.job_stale_lock_seconds).2.2.2.2.2.2.2]
    simpa using hk
  have hcp : (claim_job (some r) m env.now cfg.job_stale_lock_seconds).1.checkpoint =
      some ⟨b, k⟩ := by
    rw [claim_job, hc]
    simp [checkpointOf, hsb, hsk, hbne, hkne]
  refine ⟨hcp, ?_⟩
  have hrow := claim_job_CLAIMED_row (some r) m env.now
    cfg.job_stale_lock_seconds hclaimed
  have hpt : process_tile env (some r) m cfg rem =
      (let res := tileTryBlock env m cfg (some ⟨b, k⟩)
        ((claim_job (some r) m env.now cfg.job_stale_lock_seconds).1.claimed_at_epoch)
        (applyClaim (some r) m env.now cfg.job_stale_lock_seconds) rem
       (res.1, some res.2.1, .claimWrite :: res.2.2)) := by
    rw [process_tile]
    simp only [hclaimed, hrow, hcp]
    simp
  rw [hpt]
  obtain ⟨hmem, hall⟩ := tileTryBlock_with_checkpoint env m cfg ⟨b, k⟩
    ((claim_job (some r) m env.now cfg.job_stale_lock_seconds).1.claimed_at_epoch)
    (applyClaim (some r) m env.now cfg.job_stale_lock_seconds) rem
  refine ⟨List.mem_cons_of_mem _ hmem, ?_, ?_, ?_⟩
  · intro src hin
    rcases (List.mem_cons).mp hin with h | h
    · exact absurd h.symm (by simp)
    · exact ((hall _ h).1 src) rfl
  · intro b2 k2 hin
    rcases (List.mem_cons).mp hin with h | h
    · exact absurd h.symm (by simp)
    · exact ((hall _ h).2.1 b2 k2) rfl
  · intro b2 k2 hin
    rcases (List.mem_cons).mp hin with h | h
    · exact absurd h.symm (by simp)
    · exact ((hall _ h).2.2 b2 k2) rfl

/-- A FAILED row left behind after a crash that happened strictly after
a successful `checkpoint_s3` write. -/
def checkpointedRow : TileJobRow :=
  { status := JobStatus.FAILED, attempts := some 1,
    s3_bucket := some "bkt", s3_key := some "key1" }

/-- A concrete worker oracle for witnesses. -/
def envEx : WorkerEnv :=
  ⟨.ok "img", .ok "img", .ok (), .ok ("ok", "r"), .ok (), true, 10, 20⟩

/-- A concrete worker configuration for witnesses. -/
def cfgEx : WorkerConfig := ⟨"tj", "runs", "bkt", 900⟩

/-- C3 witness: re-claiming the concrete checkpointed row succeeds and
reveals the stored checkpoint. -/
theorem C3_checkpoint_resume_witness :
    (claim_job (some checkpointedRow) mapboxMsg envEx.now
        cfgEx.job_stale_lock_seconds).1.checkpoint =
      some ⟨"bkt", "key1"⟩ :=
  (C3_checkpoint_resume checkpointedRow mapboxMsg envEx cfgEx none "bkt" "key1"
    rfl rfl (by decide) (by decide) (by decide)).1

/-- Projection of a trace event to its sleep data. -/
def sleepInfo : RetryEvent → Option (Nat × ℚ)
  | .sleepEv i _ dur => some (i, dur)
  | _ => none

/-- Every sleep the loop records was admitted by the pre-sleep deadline
check: its start plus duration plus the attempt budget stays within the
deadline. -/
theorem requestLoop_sleep_bound (env : RetryEnv) (retryable : List Nat)
    (mr : Nat) (bb : ℚ) (d min_ms : ℚ) :
    ∀ fuel attempt (now : ℚ) last i (s dur : ℚ),
      RetryEvent.sleepEv i s dur ∈
        (requestLoop env retryable mr bb (some d) min_ms fuel attempt now last).2 →
      s + dur + min_ms / 1000 ≤ d := by
  intro fuel
  induction fuel with
  | zero =>
      intro attempt now last i s dur hmem
      rcases last with _ | r <;> simp [requestLoop] at hmem
  | succ f ih =>
      intro attempt now last i s dur hmem
      simp only [requestLoop] at hmem
      by_cases hpre : (d - now) * 1000 < min_ms
      · simp [hpre] at hmem
      · rw [if_neg (by simpa using hpre)] at hmem
        by_cases hret : retryable.contains (env.respond attempt).status_code
        · rw [if_neg (by simpa using hret)] at hmem
          by_cases hf : f = 0
          · rw [if_pos hf] at hmem
            simp at hmem
          · rw [if_neg hf] at hmem
            by_cases hsl : now + env.reqDur attempt +
                sleepFor bb attempt (env.respond attempt).retry_after +
                  min_ms / 1000 > d
            · rw [if_pos (by simpa using hsl)] at hmem
              simp at hmem
            · rw [if_neg (by simpa using hsl)] at hmem
              simp only [List.mem_cons] at hmem
              rcases hmem with h | h | h
              · exact absurd h (by simp)
              · obtain ⟨h1, h2, h3⟩ := RetryEvent.sleepEv.inj h
                subst h2; subst h3
                linarith [not_lt.mp hsl]
              · exact ih (attempt + 1)
                  (now + env.reqDur attempt +
                    sleepFor bb attempt (env.respond attempt).retry_after)
                  (some (env.respond attempt)) i s dur h
        · rw [if_pos (by simpa using hret)] at hmem
          simp at hmem

/-- C5: `request_with_retry` checks the deadline before every attempt
and before every sleep: entering the loop with
`(deadline − now) · 1000 < min_attempt_budget_ms` raises
`DEADLINE_EXCEEDED` before the attempt, a sleep with
`now + sleep + min_attempt_budget_ms/1000 > deadline` is replaced by
`DEADLINE_EXCEEDED`, and consequently every executed sleep ends no
later than `deadline − min_attempt_budget`. -/
theorem C5_deadline_safety (env : RetryEnv) (retryable : List Nat)
    (max_retries : Nat) (backoff_base : ℚ) (d min_ms start : ℚ) :
    (∀ fuel attempt (now : ℚ) last, 0 < fuel → d - now < min_ms / 1000 →
      requestLoop env retryable max_retries backoff_base (some d) min_ms
        fuel attempt now last =
        (.deadlineExceeded ((d - now) * 1000), [])) ∧
    (∀ fuel attempt (now : ℚ) last, 1 < fuel →
      ¬ (d - now) * 1000 < min_ms →
      (env.respond attempt).status_code ∈ retryable →
      now + env.reqDur attempt +
          sleepFor backoff_base attempt (env.respond attempt).retry_after +
          min_ms / 1000 > d →
      requestLoop env retryable max_retries backoff_base (some d) min_ms
        fuel attempt now last =
        (.deadlineExceeded ((d - (now + env.reqDur attempt)) * 1000),
         [.attemptEv attempt now])) ∧
    (∀ fuel attempt (now : ℚ) last i (s dur : ℚ),
      RetryEvent.sleepEv i s dur ∈
        (requestLoop env retryable max_retries backoff_base (some d) min_ms
          fuel attempt now last).2 →
      s + dur + min_ms / 1000 ≤ d ∧ s + dur ≤ d - min_ms / 1000) ∧
    (∀ i (s dur : ℚ),
      RetryEvent.sleepEv i s dur ∈
        (request_with_retry env max_retries backoff_base retryable (some d)
          min_ms start).2 →
      s + dur ≤ d - min_ms / 1000) := by
  refine ⟨?_, ?_, ?_, ?_⟩
  · intro fuel attempt now last hfuel hlate
    have hlate2 : (d - now) * 1000 < min_ms := by linarith
    cases fuel with
    | zero => exact absurd hfuel (by simp)
    | succ f => rw [requestLoop]; simp [hlate2]
  · intro fuel attempt now last hfuel hpre hret habort
    match fuel, hfuel with
    | f + 2, _ =>
        simp only [requestLoop]
        rw [if_neg (by simpa using hpre)]
        rw [if_neg (by simpa using List.elem_eq_true_of_mem hret)]
        rw [if_neg (by omega)]
        rw [if_pos (by simpa using habort)]
        simp
  · intro fuel attempt now last i s dur hmem
    have h := requestLoop_sleep_bound env retryable max_retries backoff_base
      d min_ms fuel attempt now last i s dur hmem
    exact ⟨h, by linarith⟩
  · intro i s dur hmem
    have h := requestLoop_sleep_bound env retryable max_retries backoff_base
      d min_ms max_retries 1 start none i s dur hmem
    linarith

/-- A constant-503 environment with instantaneous requests. -/
def envR : RetryEnv := ⟨fun _ => ⟨503, none⟩, fun _ => 0⟩

/-- `1 − 0 < 5000/1000` over `ℚ`. -/
theorem envR_late : (1 : ℚ) - 0 < 5000 / 1000 := by norm_num

/-- C5 witness: with deadline 1, budget 5000 ms and clock 0, the loop
aborts with `DEADLINE_EXCEEDED` before issuing any attempt. -/
theorem C5_deadline_safety_witness :
    requestLoop envR RETRYABLE_STATUS 3 1 (some 1) 5000 3 1 0 none =
      (.deadlineExceeded (((1 : ℚ) - 0) * 1000), []) :=
  (C5_deadline_safety envR RETRYABLE_STATUS 3 1 1 5000 0).1 3 1 0 none
    (by decide) envR_late

/-- The backoff computation, phrased through `pyFloat?` on the header
(absent headers parse to nothing): the `Retry-After` value when it
parses as a float, otherwise `backoff_base · 2^(attempt − 1)`. -/
theorem sleepFor_eq (bb : ℚ) (i : Nat) (ra : Option String) :
    sleepFor bb i ra =
      (match pyFloat? (ra.getD "") with
       | some f => f
       | none => bb * 2 ^ (i - 1)) := by
  rcases ra with _ | s
  · simp [sleepFor, show pyFloat? "" = none from rfl]
  · by_cases hs : s = ""
    · subst hs
      simp [sleepFor, show pyFloat? "" = none from rfl]
    · simp [sleepFor, hs]

/-- When every response in range is retryable and there is no deadline,
the loop exhausts all attempts, returns the last response, and sleeps
exactly after attempts `1 .. fuel − 1` with the backoff amounts. -/
theorem requestLoop_all_retryable (env : RetryEnv) (retryable : List Nat)
    (mr : Nat) (bb min_ms : ℚ) :
    ∀ fuel attempt (now : ℚ) last, 0 < fuel →
      (∀ i, attempt ≤ i → i < attempt + fuel →
        (env.respond i).status_code ∈ retryable) →
      (requestLoop env retryable mr bb none min_ms fuel attempt now last).1 =
        .retryExhausted (env.respond (attempt + fuel - 1)) mr ∧
      ((requestLoop env retryable mr bb none min_ms fuel attempt now last).2.filterMap
          sleepInfo) =
        (List.range (fuel - 1)).map (fun j => (attempt + j,
          sleepFor bb (attempt + j) ((env.respond (attempt + j)).retry_after))) := by
  intro fuel
  induction fuel with
  | zero =>
      intro attempt now last hfuel
      exact absurd hfuel (by simp)
  | succ f ih =>
      intro attempt now last _ hall
      have hret : (env.respond attempt).status_code ∈ retryable :=
        hall attempt le_rfl (by omega)
      cases f with
      | zero => simp [requestLoop, hret, sleepInfo]
      | succ k =>
          have hih := ih (attempt + 1)
            (now + env.reqDur attempt +
              sleepFor bb attempt (env.respond attempt).retry_after)
            (some (env.respond attempt)) (by omega)
            (fun i h1 h2 => hall i (by omega) (by omega))
          have hstep : requestLoop env retryable mr bb none min_ms
              (k + 1 + 1) attempt now last =
              ((requestLoop env retryable mr bb none min_ms (k + 1) (attempt + 1)
                  (now + env.reqDur attempt +
                    sleepFor bb attempt (env.respond attempt).retry_after)
                  (some (env.respond attempt))).1,
                RetryEvent.attemptEv attempt now ::
                  RetryEvent.sleepEv attempt (now + env.reqDur attempt)
                    (sleepFor bb attempt (env.respond attempt).retry_after) ::
                  (requestLoop env retryable mr bb none min_ms (k + 1) (attempt + 1)
                    (now + env.reqDur attempt +
                      sleepFor bb attempt (env.respond attempt).retry_after)
                    (some (env.respond attempt))).2) := by
            conv_lhs => rw [requestLoop]
            simp [hret]
          rw [hstep]
          refine ⟨?_, ?_⟩
          · rw [hih.1,
              show attempt + 1 + (k + 1) - 1 = attempt + (k + 1 + 1) - 1 from by omega]
          · simp only [List.filterMap_cons, sleepInfo]
            rw [hih.2,
              show (k + 1 + 1 - 1) = k + 1 from rfl,
              List.range_succ_eq_map k,
              show (k + 1 - 1) = k from rfl]
            simp only [List.map_cons, List.map_map, Nat.add_zero]
            congr 1
            apply List.map_congr_left
            intro j _
            simp only [Function.comp_apply, Nat.succ_eq_add_one]
            rw [show attempt + (j + 1) = attempt + 1 + j from by omega]

/-- Every response of the constant-503 environment is retryable. -/
theorem envR_retryable (i : Nat) :
    (envR.respond i).status_code ∈ RETRYABLE_STATUS := by
  show (503 : Nat) ∈ RETRYABLE_STATUS
  decide

/-- C6: when every response carries a retryable status, the sleep after
attempt `i` is `backoff_base · 2^(i−1)` unless that response's
`Retry-After` header parses as a float (in which case the sleep is that
value); after `max_retries` attempts the engine raises
`RETRY_EXHAUSTED` carrying the last response, with no sleep after the
final attempt (there are exactly `max_retries − 1` sleeps, after
attempts `1 .. max_retries − 1`). -/
theorem C6_backoff_and_exhaustion (env : RetryEnv) (max_retries : Nat)
    (backoff_base min_ms start : ℚ) (hmr : 1 ≤ max_retries)
    (hall : ∀ i, 1 ≤ i → i ≤ max_retries →
      (env.respond i).status_code ∈ RETRYABLE_STATUS) :
    (request_with_retry env max_retries backoff_base RETRYABLE_STATUS none
        min_ms start).1 =
      .retryExhausted (env.respond max_retries) max_retries ∧
    ((request_with_retry env max_retries backoff_base RETRYABLE_STATUS none
        min_ms start).2.filterMap sleepInfo) =
      (List.range (max_retries - 1)).map (fun j =>
        (j + 1,
          match pyFloat? (((env.respond (j + 1)).retry_after).getD "") with
          | some f => f
          | none => backoff_base * 2 ^ j)) := by
  have h := requestLoop_all_retryable env RETRYABLE_STATUS max_retries
    backoff_base min_ms max_retries 1 start none (by omega)
    (fun i h1 h2 => hall i h1 (by omega))
  rw [request_with_retry]
  refine ⟨?_, ?_⟩
  · rw [h.1, show 1 + max_retries - 1 = max_retries from by omega]
  · rw [h.2]
    apply List.map_congr_left
    intro j _
    rw [show 1 + j = j + 1 from by omega, sleepFor_eq]
    simp

/-- C6 witness: three 503 responses with no `Retry-After` header:
exhaustion after three attempts with sleeps `1·2⁰` and `1·2¹`. -/
theorem C6_backoff_and_exhaustion_witness :
    (request_with_retry envR 3 1 RETRYABLE_STATUS none 5000 0).1 =
      .retryExhausted (envR.respond 3) 3 ∧
    ((request_with_retry envR 3 1 RETRYABLE_STATUS none 5000 0).2.filterMap
        sleepInfo) =
      (List.range 2).map (fun j =>
        (j + 1,
          match pyFloat? (((envR.respond (j + 1)).retry_after).getD "") with
          | some f => f
          | none => (1 : ℚ) * 2 ^ j)) :=
  C6_backoff_and_exhaustion envR 3 1 5000 0 (by decide)
    (fun i h1 h2 => envR_retryable i)

end Pyrolysis
